import Mathlib

/- Shallow embedding of the cohort-component population projection engine
   of this repository: `src/utils/cohortComponentProjection.js`,
   `src/utils/scenarioCalculations.js`, `src/utils/populationHelpers.js`
   and the fertility helpers of `src/utils/fertilityRates.js`.

   JavaScript numbers are modelled as exact rationals and `Math.round`
   as `jsRound`.  The rate tables that the engine loads once at startup
   (age/sex mortality rates, migration-distribution shares, and the
   scenario-adjusted age-specific fertility rates) are passed to the
   embedded functions as explicit parameters: they stand for the values
   returned by `getMortalityRates()`, `getMigrationDistribution()` and
   `getAdjustedFertilityRates(scenarios.fertility).asfrs` after the
   one-time asynchronous load. -/

set_option autoImplicit false

/-- JavaScript `Math.round x`: the floor of `x + 1/2` (half rounds up). -/
def jsRound (x : ℚ) : ℤ := ⌊x + 1/2⌋

/-- The clamp `Math.max(0, Math.min(1, x))` used for mortality proportions. -/
def clamp01 (x : ℚ) : ℚ := max 0 (min 1 x)

/-- The fallback `r || 8.0` applied to a mortality-rate table entry: in
JavaScript an entry equal to `0` is falsy, so it is replaced by the
default `8.0` per 1000 exactly as a missing entry would be. -/
def rateOr8 (r : ℚ) : ℚ := if r = 0 then 8 else r

/-- A population snapshot `{ male: Array[21], female: Array[21] }`:
21 five-year age bands per sex; band 20 is the open-ended 100+ band.
Indices outside 0..20 are never read by the engine. -/
structure PopulationSnapshot where
  male : ℕ → ℚ
  female : ℕ → ℚ

/-- The scenario record `{ fertility, mortality, migration }`, each a
percentage adjustment. -/
structure Scenarios where
  fertility : ℚ
  mortality : ℚ
  migration : ℚ

/-- A per-cohort per-sex table of rationals, used both for the mortality
rates (per-1000 annual rates) and for the migration-distribution shares. -/
structure RateTable where
  male : ℕ → ℚ
  female : ℕ → ℚ

/-- `const mortalityMultiplier = 1 + scenarios.mortality / 100` in
`projectOneYear`. -/
def mortalityMultiplier (sc : Scenarios) : ℚ := 1 + sc.mortality / 100

/-- `const migrationMultiplier = 1 + scenarios.migration / 100` in
`projectOneYear`. -/
def migrationMultiplier (sc : Scenarios) : ℚ := 1 + sc.migration / 100

/-- `Math.round(BASELINE_NET_MIGRATION * migrationMultiplier)` with the
baseline constant 400000. -/
def adjustedNetMigration (sc : Scenarios) : ℤ :=
  jsRound (400000 * migrationMultiplier sc)

/-- The adjusted mortality proportion of one cohort/sex cell:
`Math.max(0, Math.min(1, base * multiplier / 1000))`. -/
def mortalityProp (base mult : ℚ) : ℚ := clamp01 (base * mult / 1000)

/-- STEP 1 of `projectOneYear`, male cell `i`:
`Math.round(malePop * maleMortalityProp)` where the base rate is
`baseMaleRates[i] || 8.0`. -/
def deathsMale (rates : RateTable) (sc : Scenarios) (pop : PopulationSnapshot)
    (i : ℕ) : ℤ :=
  jsRound (pop.male i * mortalityProp (rateOr8 (rates.male i)) (mortalityMultiplier sc))

/-- STEP 1 of `projectOneYear`, female cell `i`. -/
def deathsFemale (rates : RateTable) (sc : Scenarios) (pop : PopulationSnapshot)
    (i : ℕ) : ℤ :=
  jsRound (pop.female i * mortalityProp (rateOr8 (rates.female i)) (mortalityMultiplier sc))

/-- The accumulator `totalDeaths` of STEP 1: the sum of the 42 per-cell
rounded death counts. -/
def totalDeaths (rates : RateTable) (sc : Scenarios) (pop : PopulationSnapshot) : ℤ :=
  Finset.sum (Finset.range 21) (fun i => deathsMale rates sc pop i + deathsFemale rates sc pop i)

/-- The accumulator `totalPopulation` of STEP 1: the sum of the 42 input
cells. -/
def totalPopulation (pop : PopulationSnapshot) : ℚ :=
  Finset.sum (Finset.range 21) (fun i => pop.male i + pop.female i)

/-- STEP 2 of `projectOneYear`: `survivors[i].male = malePop - deaths`. -/
def survivorsMale (rates : RateTable) (sc : Scenarios) (pop : PopulationSnapshot)
    (i : ℕ) : ℚ :=
  pop.male i - (deathsMale rates sc pop i : ℚ)

/-- STEP 2 of `projectOneYear`: `survivors[i].female = femalePop - deaths`. -/
def survivorsFemale (rates : RateTable) (sc : Scenarios) (pop : PopulationSnapshot)
    (i : ℕ) : ℚ :=
  pop.female i - (deathsFemale rates sc pop i : ℚ)

/-- STEP 3 of `projectOneYear` (one sex): bands 1..19 get
`survivors[i-1]/5 + survivors[i]*4/5`, band 20 gets
`survivors[19]/5 + survivors[20]`, and band 0 is left at its initial 0
(it is filled by STEP 5). -/
def ageStep (surv : ℕ → ℚ) (i : ℕ) : ℚ :=
  if i = 0 then 0
  else if i = 20 then surv 19 / 5 + surv 20
  else surv (i - 1) / 5 + surv i * 4 / 5

/-- `calculateBirthsFromASFR` of `fertilityRates.js`: the rounded sum of
`femalePopulation[i] * asfrs[i]` over the reproductive bands 3..9. -/
def calculateBirthsFromASFR (femalePopulation asfrs : ℕ → ℚ) : ℤ :=
  jsRound (Finset.sum (Finset.Icc 3 9) (fun i => femalePopulation i * asfrs i))

/-- The band-0 adjusted male mortality proportion used for infant
survival in STEP 4.  Note: the source reads `baseMaleRates[0]` here with
no `|| 8.0` fallback. -/
def infantMortalityMale (rates : RateTable) (sc : Scenarios) : ℚ :=
  clamp01 (rates.male 0 * mortalityMultiplier sc / 1000)

/-- The band-0 adjusted female mortality proportion used for infant
survival in STEP 4. -/
def infantMortalityFemale (rates : RateTable) (sc : Scenarios) : ℚ :=
  clamp01 (rates.female 0 * mortalityMultiplier sc / 1000)

/-- STEP 4: `Math.round(births * 0.49 * (1 - infantMortalityMale))`. -/
def maleInfantSurvivors (rates : RateTable) (sc : Scenarios)
    (pop : PopulationSnapshot) (asfrs : ℕ → ℚ) : ℤ :=
  jsRound ((calculateBirthsFromASFR pop.female asfrs : ℚ) * (49/100)
    * (1 - infantMortalityMale rates sc))

/-- STEP 4: `Math.round(births * 0.51 * (1 - infantMortalityFemale))`. -/
def femaleInfantSurvivors (rates : RateTable) (sc : Scenarios)
    (pop : PopulationSnapshot) (asfrs : ℕ → ℚ) : ℤ :=
  jsRound ((calculateBirthsFromASFR pop.female asfrs : ℚ) * (51/100)
    * (1 - infantMortalityFemale rates sc))

/-- The male `projected` array after STEPS 3 and 5: band 0 is
`survivors[0]*4/5` plus the surviving male infants, bands 1..20 come
from the aging step. -/
def projectedMale (rates : RateTable) (sc : Scenarios) (pop : PopulationSnapshot)
    (asfrs : ℕ → ℚ) (i : ℕ) : ℚ :=
  if i = 0 then
    survivorsMale rates sc pop 0 * 4 / 5 + (maleInfantSurvivors rates sc pop asfrs : ℚ)
  else ageStep (survivorsMale rates sc pop) i

/-- The female `projected` array after STEPS 3 and 5. -/
def projectedFemale (rates : RateTable) (sc : Scenarios) (pop : PopulationSnapshot)
    (asfrs : ℕ → ℚ) (i : ℕ) : ℚ :=
  if i = 0 then
    survivorsFemale rates sc pop 0 * 4 / 5 + (femaleInfantSurvivors rates sc pop asfrs : ℚ)
  else ageStep (survivorsFemale rates sc pop) i

/-- STEP 6: `Math.round(adjustedNetMigration * share)` for a male cell. -/
def migrantsMale (dist : RateTable) (sc : Scenarios) (i : ℕ) : ℤ :=
  jsRound ((adjustedNetMigration sc : ℚ) * dist.male i)

/-- STEP 6: `Math.round(adjustedNetMigration * share)` for a female cell. -/
def migrantsFemale (dist : RateTable) (sc : Scenarios) (i : ℕ) : ℤ :=
  jsRound ((adjustedNetMigration sc : ℚ) * dist.female i)

/-- `finalMale[i] = Math.max(0, projectedMale[i] + maleMigration[i])`. -/
def finalMale (rates dist : RateTable) (asfrs : ℕ → ℚ) (sc : Scenarios)
    (pop : PopulationSnapshot) (i : ℕ) : ℚ :=
  max 0 (projectedMale rates sc pop asfrs i + (migrantsMale dist sc i : ℚ))

/-- `finalFemale[i] = Math.max(0, projectedFemale[i] + femaleMigration[i])`. -/
def finalFemale (rates dist : RateTable) (asfrs : ℕ → ℚ) (sc : Scenarios)
    (pop : PopulationSnapshot) (i : ℕ) : ℚ :=
  max 0 (projectedFemale rates sc pop asfrs i + (migrantsFemale dist sc i : ℚ))

/-- The value returned by `projectOneYear`: the final arrays plus the
`_components` diagnostics that the claims mention. -/
structure ProjectionResult where
  male : ℕ → ℚ
  female : ℕ → ℚ
  births : ℤ
  deaths : ℤ
  adjustedNetMigration : ℤ
  globalMortalityRate : ℚ

/-- `projectOneYear(currentPopulation, scenarios, data)` relative to the
loaded mortality rates, migration distribution and adjusted ASFRs. -/
def projectOneYear (rates dist : RateTable) (asfrs : ℕ → ℚ) (sc : Scenarios)
    (pop : PopulationSnapshot) : ProjectionResult :=
  { male := finalMale rates dist asfrs sc pop
    female := finalFemale rates dist asfrs sc pop
    births := calculateBirthsFromASFR pop.female asfrs
    deaths := totalDeaths rates sc pop
    adjustedNetMigration := adjustedNetMigration sc
    globalMortalityRate :=
      if 0 < totalPopulation pop then
        (totalDeaths rates sc pop : ℚ) / totalPopulation pop * 1000
      else 0 }

/-- `projectOneYear` viewed as a transition on snapshots: the final male
and female arrays, dropping the diagnostics (used by `projectToYear`). -/
def projectOneYearSnap (rates dist : RateTable) (asfrs : ℕ → ℚ) (sc : Scenarios)
    (pop : PopulationSnapshot) : PopulationSnapshot :=
  { male := (projectOneYear rates dist asfrs sc pop).male
    female := (projectOneYear rates dist asfrs sc pop).female }

/-- The full dataset as consumed by `populationHelpers.js` and
`scenarioCalculations.js`: last observed/projected years and the stored
per-year snapshots (`Option` models a missing key). -/
structure Dataset where
  lastObservedYear : ℤ
  lastProjectedYear : ℤ
  observed : ℤ → Option PopulationSnapshot
  projected : ℤ → Option PopulationSnapshot

/-- `getPopulationByYear` of `populationHelpers.js`. -/
def getPopulationByYear (data : Dataset) (year : ℤ) : Option PopulationSnapshot :=
  if year ≤ data.lastObservedYear then data.observed year
  else if year ≤ data.lastProjectedYear then data.projected year
  else none

/-- `getYearType` of `populationHelpers.js`. -/
def getYearType (data : Dataset) (year : ℤ) : String :=
  if year ≤ data.lastObservedYear then "observed" else "projected"

/-- `projectToYear(data, scenarios, targetYear, baseYear)`: the cache is
pure memoization, so the function is modelled as the iterated
application of `projectOneYear` from the base-year snapshot; `none`
models the `null` returned when no base snapshot exists. -/
def projectToYear (rates dist : RateTable) (asfrs : ℕ → ℚ) (data : Dataset)
    (sc : Scenarios) (targetYear baseYear : ℤ) : Option PopulationSnapshot :=
  match getPopulationByYear data baseYear with
  | none => none
  | some pop0 =>
      some ((fun p => projectOneYearSnap rates dist asfrs sc p)^[(targetYear - baseYear).toNat] pop0)

/-- One cell of the projected branch of `applyScenarios` in
`scenarioCalculations.js`: the chained per-band multipliers (fertility on
band 0, the inverted mortality multiplier on bands 13+, migration on
bands 4..12) followed by `Math.max(0, Math.round(adjusted))`. -/
def scenarioAdjustCell (fm mm gm : ℚ) (i : ℕ) (popVal : ℚ) : ℚ :=
  let a1 := if i = 0 then popVal * fm else popVal
  let a2 := if 13 ≤ i then a1 * mm else a1
  let a3 := if 4 ≤ i ∧ i ≤ 12 then a2 * gm else a2
  max 0 ((jsRound a3 : ℚ))

/-- `applyScenarios(data, scenarios, year)` of `scenarioCalculations.js`.
Observed years return the stored snapshot; projected years apply the
per-band multipliers to the stored baseline for that year.  A missing
baseline returns the empty result `{ male: [], female: [] }`, modelled
as the all-zero snapshot. -/
def applyScenarios (data : Dataset) (sc : Scenarios) (year : ℤ) :
    Option PopulationSnapshot :=
  if getYearType data year = "observed" then
    getPopulationByYear data year
  else
    match getPopulationByYear data year with
    | none => some { male := fun _ => 0, female := fun _ => 0 }
    | some baseline =>
        let fm := 1 + sc.fertility / 100
        let mm := 1 - sc.mortality / 100
        let gm := 1 + sc.migration / 100
        some { male := fun i => scenarioAdjustCell fm mm gm i (baseline.male i)
               female := fun i => scenarioAdjustCell fm mm gm i (baseline.female i) }

/-- `calculateGlobalMortalityRate(population, scenarios)`: the standalone
diagnostic utility at the bottom of `cohortComponentProjection.js`,
embedded independently of `projectOneYear`. -/
def calculateGlobalMortalityRate (rates : RateTable) (sc : Scenarios)
    (pop : PopulationSnapshot) : ℚ :=
  let mult := 1 + sc.mortality / 100
  let td : ℤ := Finset.sum (Finset.range 21) (fun i =>
    jsRound (pop.male i * clamp01 (rateOr8 (rates.male i) * mult / 1000))
      + jsRound (pop.female i * clamp01 (rateOr8 (rates.female i) * mult / 1000)))
  let tp : ℚ := Finset.sum (Finset.range 21) (fun i => pop.male i + pop.female i)
  if 0 < tp then (td : ℚ) / tp * 1000 else 0

/- Concrete inputs used by the claim theorems and witnesses. -/

/-- The neutral scenario `{fertility: 0, mortality: 0, migration: 0}`. -/
def neutralScenarios : Scenarios := ⟨0, 0, 0⟩

/-- A scenario with extreme mortality +100000%. -/
def extremeMortalityScenarios : Scenarios := ⟨0, 100000, 0⟩

/-- The all-zero snapshot. -/
def zeroSnapshot : PopulationSnapshot := ⟨fun _ => 0, fun _ => 0⟩

/-- An all-zero rate table (every mortality entry falls back to the
default 8.0; as a migration distribution it sends no migrants). -/
def zeroRates : RateTable := ⟨fun _ => 0, fun _ => 0⟩

/-- An all-zero age-specific fertility table. -/
def zeroASFR : ℕ → ℚ := fun _ => 0

/-- The spec's global-rate example population: 900 male in band 0,
100 male in band 20, nothing else. -/
def ratePop : PopulationSnapshot :=
  ⟨fun i => if i = 0 then 900 else if i = 20 then 100 else 0, fun _ => 0⟩

/-- The spec's global-rate example mortality table: 1 per 1000 in band 0,
300 per 1000 in band 20 (male side; the female side is unused). -/
def rateTableEx : RateTable :=
  ⟨fun i => if i = 0 then 1 else if i = 20 then 300 else 0, fun _ => 0⟩

/-- A snapshot with 1000 people of each sex in band 0 and nothing else. -/
def band0Pop : PopulationSnapshot :=
  ⟨fun i => if i = 0 then 1000 else 0, fun i => if i = 0 then 1000 else 0⟩

/-- A snapshot with half a person (male) in band 0 and nothing else. -/
def halfPop : PopulationSnapshot := ⟨fun i => if i = 0 then 1/2 else 0, fun _ => 0⟩

/-- A snapshot with a single male in band 0 and nothing else. -/
def onePop : PopulationSnapshot := ⟨fun i => if i = 0 then 1 else 0, fun _ => 0⟩

/-- A dataset whose last observed year is 2025, with an all-zero
observed 2025 snapshot and a stored projected 2026 baseline holding 7
males in band 0. -/
def dataEx : Dataset :=
  { lastObservedYear := 2025
    lastProjectedYear := 2100
    observed := fun y => if y = 2025 then some zeroSnapshot else none
    projected := fun y => if y = 2026 then some ⟨fun i => if i = 0 then 7 else 0, fun _ => 0⟩ else none }

/-- A copy of a rate table with one male entry replaced. -/
def setMaleRate (rates : RateTable) (j : ℕ) (v : ℚ) : RateTable :=
  ⟨fun i => if i = j then v else rates.male i, rates.female⟩

/-- A concrete survivors array sending band `j` to `j` people. -/
def sampleSurv : ℕ → ℚ := fun j => j

/- Auxiliary lemmas shared by several claim theorems. -/

/-- The clamp is nonnegative. -/
lemma clamp01_nonneg (x : ℚ) : 0 ≤ clamp01 x := le_max_left 0 _

/-- The clamp is at most one. -/
lemma clamp01_le_one (x : ℚ) : clamp01 x ≤ 1 :=
  max_le (by norm_num) (min_le_left 1 x)

/-- Rounding a natural population scaled by a proportion at most one
never exceeds the population. -/
lemma jsRound_mul_le (n : ℕ) (p : ℚ) (hp : p ≤ 1) : jsRound ((n : ℚ) * p) ≤ (n : ℤ) := by
  have h1 : (n : ℚ) * p ≤ n := mul_le_of_le_one_right (by positivity) hp
  have h2 : ⌊(n : ℚ) * p + 1/2⌋ ≤ ⌊(n : ℚ) + 1/2⌋ := Int.floor_le_floor (by linarith)
  have h3 : ⌊(n : ℚ) + 1/2⌋ = (n : ℤ) := by
    rw [show ((n : ℚ)) = (((n : ℤ) : ℚ)) by push_cast; ring, Int.floor_int_add]
    norm_num
  rw [jsRound]
  omega

/- Claim theorems. -/

/-- C1 (amended).  The `globalMortalityRate` diagnostic of
`projectOneYear` is the population-weighted ratio
`totalDeaths / totalPopulation * 1000`, where `totalDeaths` sums the 42
per-cohort rounded death counts and `totalPopulation` sums the 42 input
cells; on the spec's example (900 in band 0 at rate 1/1000, 100 in
band 20 at rate 300/1000, 0% scenario) it yields 31 — the per-cohort
rounding turns 0.9 deaths into 1 — and in particular never the
arithmetic mean 150.5 of the base rates. -/
theorem globalMortalityRate_weighted :
    (∀ (rates dist : RateTable) (asfrs : ℕ → ℚ) (sc : Scenarios)
        (pop : PopulationSnapshot), 0 < totalPopulation pop →
        (projectOneYear rates dist asfrs sc pop).globalMortalityRate
          = (totalDeaths rates sc pop : ℚ) / totalPopulation pop * 1000)
    ∧ (projectOneYear rateTableEx zeroRates zeroASFR neutralScenarios ratePop).globalMortalityRate = 31
    ∧ (projectOneYear rateTableEx zeroRates zeroASFR neutralScenarios ratePop).globalMortalityRate
        ≠ 301/2 := by
  have hval : (projectOneYear rateTableEx zeroRates zeroASFR neutralScenarios
      ratePop).globalMortalityRate = 31 := by
    norm_num [projectOneYear, totalDeaths, totalPopulation, deathsMale, deathsFemale,
      mortalityProp, mortalityMultiplier, rateOr8, clamp01, jsRound, ratePop, rateTableEx,
      neutralScenarios, Finset.sum_range_succ, min_def, max_def]
  refine ⟨?_, hval, by rw [hval]; norm_num⟩
  intro rates dist asfrs sc pop h
  simp only [projectOneYear]
  rw [if_pos h]

/-- C1 witness: the weighted-ratio formula applied at the spec's example
input, whose total population 1000 is positive. -/
theorem globalMortalityRate_weighted_witness :
    0 < totalPopulation ratePop
    ∧ (projectOneYear rateTableEx zeroRates zeroASFR neutralScenarios ratePop).globalMortalityRate
        = (totalDeaths rateTableEx neutralScenarios ratePop : ℚ) / totalPopulation ratePop * 1000 := by
  have hpos : 0 < totalPopulation ratePop := by
    norm_num [totalPopulation, ratePop, Finset.sum_range_succ]
  exact ⟨hpos, globalMortalityRate_weighted.1 rateTableEx zeroRates zeroASFR
    neutralScenarios ratePop hpos⟩

/-- C1 counterexample: on the example input the diagnostic is exactly 31,
not the 30.9 the claim states (the engine rounds the 0.9 deaths of
band 0 up to 1 before summing). -/
theorem globalMortalityRate_example_is_31 :
    (projectOneYear rateTableEx zeroRates zeroASFR neutralScenarios ratePop).globalMortalityRate = 31
    ∧ (projectOneYear rateTableEx zeroRates zeroASFR neutralScenarios ratePop).globalMortalityRate
        ≠ 309/10 := by
  have hval : (projectOneYear rateTableEx zeroRates zeroASFR neutralScenarios
      ratePop).globalMortalityRate = 31 := by
    norm_num [projectOneYear, totalDeaths, totalPopulation, deathsMale, deathsFemale,
      mortalityProp, mortalityMultiplier, rateOr8, clamp01, jsRound, ratePop, rateTableEx,
      neutralScenarios, Finset.sum_range_succ, min_def, max_def]
  exact ⟨hval, by rw [hval]; norm_num⟩

/-- C2 (amended).  Before migration is added, band 0 of each sex is the
sum of two contributions: four fifths of that sex's band-0 survivors
(ages 0-3 staying in the band) plus the rounded surviving infants; the
aging step itself leaves band 0 at zero, but STEP 5 adds the staying
term, so band 0 is not supplied by births alone. -/
theorem band0_composition :
    ∀ (rates : RateTable) (sc : Scenarios) (pop : PopulationSnapshot) (asfrs : ℕ → ℚ),
      projectedMale rates sc pop asfrs 0
        = survivorsMale rates sc pop 0 * 4 / 5 + (maleInfantSurvivors rates sc pop asfrs : ℚ)
      ∧ projectedFemale rates sc pop asfrs 0
        = survivorsFemale rates sc pop 0 * 4 / 5 + (femaleInfantSurvivors rates sc pop asfrs : ℚ)
      ∧ ageStep (survivorsMale rates sc pop) 0 = 0
      ∧ ageStep (survivorsFemale rates sc pop) 0 = 0 := by
  intro rates sc pop asfrs
  exact ⟨rfl, rfl, rfl, rfl⟩

/-- C2 counterexample: with 1000 females in band 0, zero fertility and
default mortality, the pre-migration female band 0 is 3968/5 = 793.6
(four fifths of the 992 survivors) while the surviving infants are 0, so
band 0 is not equal to the infant contribution alone. -/
theorem band0_not_births_only :
    projectedFemale zeroRates neutralScenarios band0Pop zeroASFR 0 = 3968/5
    ∧ (femaleInfantSurvivors zeroRates neutralScenarios band0Pop zeroASFR : ℚ) = 0
    ∧ projectedFemale zeroRates neutralScenarios band0Pop zeroASFR 0
        ≠ (femaleInfantSurvivors zeroRates neutralScenarios band0Pop zeroASFR : ℚ) := by
  have h1 : projectedFemale zeroRates neutralScenarios band0Pop zeroASFR 0 = 3968/5 := by
    norm_num [projectedFemale, survivorsFemale, deathsFemale, femaleInfantSurvivors,
      calculateBirthsFromASFR, infantMortalityFemale, mortalityProp, mortalityMultiplier,
      rateOr8, clamp01, jsRound, zeroRates, neutralScenarios, band0Pop, zeroASFR,
      min_def, max_def, Finset.sum_eq_zero]
  have h2 : (femaleInfantSurvivors zeroRates neutralScenarios band0Pop zeroASFR : ℚ) = 0 := by
    norm_num [femaleInfantSurvivors, calculateBirthsFromASFR, infantMortalityFemale,
      mortalityMultiplier, clamp01, jsRound, zeroRates, neutralScenarios, band0Pop, zeroASFR,
      min_def, max_def, Finset.sum_eq_zero]
  exact ⟨h1, h2, by rw [h1, h2]; norm_num⟩

/-- C3.  Divergence witness for the scenario gateway: for the projected
year 2026 of `dataEx` (last observed year 2025), `applyScenarios` keeps
the stored projected baseline (7 males in band 0, only reshaped by the
per-band multipliers), while delegation to the multi-year projector with
`baseYear = lastObservedYear` would give the cohort projection of the
observed 2025 snapshot (0 males in band 0) — so `applyScenarios` does
not delegate to `projectToYear`. -/
theorem applyScenarios_not_delegating :
    (applyScenarios dataEx neutralScenarios 2026).map (fun s => s.male 0) = some 7
    ∧ (projectToYear zeroRates zeroRates zeroASFR dataEx neutralScenarios 2026 2025).map
        (fun s => s.male 0) = some 0
    ∧ applyScenarios dataEx neutralScenarios 2026
        ≠ projectToYear zeroRates zeroRates zeroASFR dataEx neutralScenarios 2026 2025 := by
  have hs : (("projected" : String) = "observed") = False := by simp
  have h1 : (applyScenarios dataEx neutralScenarios 2026).map (fun s => s.male 0) = some 7 := by
    simp only [applyScenarios, getYearType, getPopulationByYear, dataEx, neutralScenarios]
    norm_num [hs, scenarioAdjustCell, jsRound]
  have h2 : (projectToYear zeroRates zeroRates zeroASFR dataEx neutralScenarios 2026 2025).map
      (fun s => s.male 0) = some 0 := by
    simp only [projectToYear, getPopulationByYear, dataEx]
    norm_num [projectOneYearSnap, projectOneYear, finalMale, projectedMale, ageStep,
      survivorsMale, deathsMale, migrantsMale, adjustedNetMigration, migrationMultiplier,
      maleInfantSurvivors, calculateBirthsFromASFR, infantMortalityMale, mortalityProp,
      mortalityMultiplier, rateOr8, clamp01, jsRound, zeroRates, zeroASFR, neutralScenarios,
      zeroSnapshot, min_def, max_def, Finset.sum_eq_zero, Function.iterate_one]
  refine ⟨h1, h2, fun h => ?_⟩
  rw [h] at h1
  rw [h1] at h2
  exact absurd (Option.some.inj h2) (by norm_num)

/-- C4 (amended).  In the mortality step, survivors are nonnegative for
every snapshot whose entries are nonnegative integers and every
mortality% value: the adjusted proportion is clamped to at most 1, and
rounding an integer population scaled by a proportion at most 1 cannot
exceed the population. -/
theorem survivors_nonneg_of_int (rates : RateTable) (sc : Scenarios)
    (pop : PopulationSnapshot) (i : ℕ) (n m : ℕ)
    (hm : pop.male i = (n : ℚ)) (hf : pop.female i = (m : ℚ)) :
    0 ≤ survivorsMale rates sc pop i ∧ 0 ≤ survivorsFemale rates sc pop i := by
  constructor
  · have hb := jsRound_mul_le n (mortalityProp (rateOr8 (rates.male i)) (mortalityMultiplier sc))
      (clamp01_le_one _)
    have : (deathsMale rates sc pop i : ℚ) ≤ (n : ℚ) := by
      rw [deathsMale, hm]
      exact_mod_cast hb
    rw [survivorsMale, hm]
    linarith
  · have hb := jsRound_mul_le m (mortalityProp (rateOr8 (rates.female i)) (mortalityMultiplier sc))
      (clamp01_le_one _)
    have : (deathsFemale rates sc pop i : ℚ) ≤ (m : ℚ) := by
      rw [deathsFemale, hf]
      exact_mod_cast hb
    rw [survivorsFemale, hf]
    linarith

/-- C4 witness: the integer snapshot with 1000 of each sex in band 0,
under the extreme mortality scenario +100000%, still has nonnegative
survivors in band 0. -/
theorem survivors_nonneg_of_int_witness :
    0 ≤ survivorsMale zeroRates extremeMortalityScenarios band0Pop 0
    ∧ 0 ≤ survivorsFemale zeroRates extremeMortalityScenarios band0Pop 0 :=
  survivors_nonneg_of_int zeroRates extremeMortalityScenarios band0Pop 0 1000 1000
    (by norm_num [band0Pop]) (by norm_num [band0Pop])

/-- C4 counterexample: the claim fails for nonnegative non-integer
entries.  With half a person (male) in band 0 — a value the engine can
itself produce, since its outputs are not integral — and mortality%
+100000 the clamped proportion is 1, the rounded deaths are
`round(0.5) = 1`, and the survivors are -1/2 < 0, although every input
entry is nonnegative. -/
theorem survivors_negative_on_fractional :
    survivorsMale zeroRates extremeMortalityScenarios halfPop 0 = -(1/2)
    ∧ survivorsMale zeroRates extremeMortalityScenarios halfPop 0 < 0
    ∧ (∀ i, 0 ≤ halfPop.male i ∧ 0 ≤ halfPop.female i) := by
  have h1 : survivorsMale zeroRates extremeMortalityScenarios halfPop 0 = -(1/2) := by
    norm_num [survivorsMale, deathsMale, mortalityProp, mortalityMultiplier, rateOr8, clamp01,
      jsRound, zeroRates, extremeMortalityScenarios, halfPop, min_def, max_def]
  refine ⟨h1, by rw [h1]; norm_num, fun i => ⟨?_, le_refl 0⟩⟩
  by_cases h : i = 0 <;> simp [halfPop, h]

/-- C5.  The aging step: every band 1..19 receives one fifth of the
next-younger band's survivors and keeps four fifths of its own, and the
terminal band 20 receives one fifth of band 19 and keeps all of its own
survivors; bands 1..20 of the pre-migration `projected` arrays of
`projectOneYear` are exactly this aging step applied to the survivors. -/
theorem aging_step_formulas :
    (∀ surv : ℕ → ℚ, ∀ i : ℕ, 1 ≤ i → i ≤ 19 →
        ageStep surv i = surv (i - 1) / 5 + surv i * 4 / 5)
    ∧ (∀ surv : ℕ → ℚ, ageStep surv 20 = surv 19 / 5 + surv 20)
    ∧ (∀ (rates : RateTable) (sc : Scenarios) (pop : PopulationSnapshot)
          (asfrs : ℕ → ℚ), ∀ i : ℕ, 1 ≤ i →
        projectedMale rates sc pop asfrs i = ageStep (survivorsMale rates sc pop) i
        ∧ projectedFemale rates sc pop asfrs i = ageStep (survivorsFemale rates sc pop) i) := by
  refine ⟨?_, ?_, ?_⟩
  · intro surv i h1 h19
    rw [ageStep, if_neg (by omega), if_neg (by omega)]
  · intro surv
    rw [ageStep]
    norm_num
  · intro rates sc pop asfrs i h1
    constructor
    · rw [projectedMale, if_neg (by omega)]
    · rw [projectedFemale, if_neg (by omega)]

/-- C5 witness: the aging formulas applied to the concrete survivors
function sending band `j` to `j`, at bands 1 and 20, and to band 1 of
the projected arrays on a concrete snapshot. -/
theorem aging_step_formulas_witness :
    ageStep sampleSurv 1 = sampleSurv 0 / 5 + sampleSurv 1 * 4 / 5
    ∧ ageStep sampleSurv 20 = sampleSurv 19 / 5 + sampleSurv 20
    ∧ projectedMale zeroRates neutralScenarios band0Pop zeroASFR 1
        = ageStep (survivorsMale zeroRates neutralScenarios band0Pop) 1 :=
  ⟨aging_step_formulas.1 sampleSurv 1 (by norm_num) (by norm_num),
   aging_step_formulas.2.1 sampleSurv,
   (aging_step_formulas.2.2 zeroRates neutralScenarios band0Pop zeroASFR 1 (by norm_num)).1⟩

/-- C6.  Every entry of the final snapshot returned by `projectOneYear`
is nonnegative, for every input snapshot, every scenario (including
arbitrarily negative migration%) and every rate table, because each
final cell is `max 0 (projected + migrants)`. -/
theorem projectOneYear_nonneg :
    ∀ (rates dist : RateTable) (asfrs : ℕ → ℚ) (sc : Scenarios)
      (pop : PopulationSnapshot) (i : ℕ),
      0 ≤ (projectOneYear rates dist asfrs sc pop).male i
      ∧ 0 ≤ (projectOneYear rates dist asfrs sc pop).female i := by
  intro rates dist asfrs sc pop i
  exact ⟨le_max_left 0 _, le_max_left 0 _⟩

/-- C7.  For every year at or before the last observed year and any two
scenarios, `applyScenarios` returns the stored observed snapshot
unmodified, independent of the scenario. -/
theorem applyScenarios_observed :
    ∀ (data : Dataset) (s1 s2 : Scenarios) (year : ℤ),
      year ≤ data.lastObservedYear →
      applyScenarios data s1 year = data.observed year
      ∧ applyScenarios data s2 year = data.observed year := by
  intro data s1 s2 year h
  constructor <;> simp [applyScenarios, getYearType, getPopulationByYear, h]

/-- C7 witness: on the concrete dataset, the observed year 2025 returns
the stored snapshot for both the neutral and the extreme scenario. -/
theorem applyScenarios_observed_witness :
    applyScenarios dataEx neutralScenarios 2025 = dataEx.observed 2025
    ∧ applyScenarios dataEx extremeMortalityScenarios 2025 = dataEx.observed 2025 :=
  applyScenarios_observed dataEx neutralScenarios extremeMortalityScenarios 2025
    (by norm_num [dataEx])

/-- C8.  For every population, scenario and rate table, the standalone
`calculateGlobalMortalityRate` utility returns exactly the number that
`projectOneYear` reports as its `globalMortalityRate` diagnostic on the
same inputs: the same per-cohort defaults, clamping, rounding and
accumulation, including the 0 result on an empty population. -/
theorem calculateGlobalMortalityRate_eq_diag :
    ∀ (rates dist : RateTable) (asfrs : ℕ → ℚ) (sc : Scenarios)
      (pop : PopulationSnapshot),
      calculateGlobalMortalityRate rates sc pop
        = (projectOneYear rates dist asfrs sc pop).globalMortalityRate := by
  intro rates dist asfrs sc pop
  rfl

/-- C9.  A mortality-rate entry equal to 0 is treated like a missing one:
the per-cohort deaths of `projectOneYear` and the standalone global-rate
utility are unchanged when the zero entry is replaced by the default 8.0
per 1000, so a genuine zero death rate cannot take effect. -/
theorem zero_rate_defaults_to_8 (rates : RateTable) (sc : Scenarios)
    (pop : PopulationSnapshot) (j : ℕ) (hz : rates.male j = 0) :
    (∀ i, deathsMale rates sc pop i = deathsMale (setMaleRate rates j 8) sc pop i)
    ∧ calculateGlobalMortalityRate rates sc pop
        = calculateGlobalMortalityRate (setMaleRate rates j 8) sc pop := by
  have key : ∀ i, rateOr8 ((setMaleRate rates j 8).male i) = rateOr8 (rates.male i) := by
    intro i
    by_cases h : i = j
    · subst h
      simp [setMaleRate, rateOr8, hz]
    · simp [setMaleRate, h]
  constructor
  · intro i
    rw [deathsMale, deathsMale, key i]
  · rw [calculateGlobalMortalityRate, calculateGlobalMortalityRate]
    have hsum : Finset.sum (Finset.range 21) (fun i =>
        jsRound (pop.male i * clamp01 (rateOr8 ((setMaleRate rates j 8).male i)
          * (1 + sc.mortality / 100) / 1000))
        + jsRound (pop.female i * clamp01 (rateOr8 ((setMaleRate rates j 8).female i)
          * (1 + sc.mortality / 100) / 1000)))
        = Finset.sum (Finset.range 21) (fun i =>
        jsRound (pop.male i * clamp01 (rateOr8 (rates.male i)
          * (1 + sc.mortality / 100) / 1000))
        + jsRound (pop.female i * clamp01 (rateOr8 (rates.female i)
          * (1 + sc.mortality / 100) / 1000))) := by
      refine Finset.sum_congr rfl (fun i _ => ?_)
      rw [key i]
      simp [setMaleRate]
    simp only [setMaleRate] at hsum ⊢
    rw [hsum]

/-- C9 witness: a table whose band-0 male rate is 0 produces in band 0,
on 1000 males with the neutral scenario, the same deaths as the default
rate 8.0 — namely 8, not 0. -/
theorem zero_rate_defaults_to_8_witness :
    deathsMale zeroRates neutralScenarios band0Pop 0
      = deathsMale (setMaleRate zeroRates 0 8) neutralScenarios band0Pop 0
    ∧ deathsMale zeroRates neutralScenarios band0Pop 0 = 8 := by
  constructor
  · exact (zero_rate_defaults_to_8 zeroRates neutralScenarios band0Pop 0 rfl).1 0
  · norm_num [deathsMale, mortalityProp, mortalityMultiplier, rateOr8, clamp01, jsRound,
      zeroRates, neutralScenarios, band0Pop, min_def, max_def]

/-- C10.  Outputs of `projectOneYear` are not integral in general: on the
all-integer snapshot with a single male in band 0, under the neutral
scenario, band 1 of the returned male array is 1/5 — the aging division
by 5 is never rounded, while births, deaths and migrants are. -/
theorem projectOneYear_not_integral :
    (∀ i : ℕ, (∃ m : ℕ, onePop.male i = (m : ℚ)) ∧ (∃ m : ℕ, onePop.female i = (m : ℚ)))
    ∧ (projectOneYear zeroRates zeroRates zeroASFR neutralScenarios onePop).male 1 = 1/5
    ∧ ¬ ∃ n : ℤ,
        (projectOneYear zeroRates zeroRates zeroASFR neutralScenarios onePop).male 1
          = (n : ℚ) := by
  have hval : (projectOneYear zeroRates zeroRates zeroASFR neutralScenarios onePop).male 1
      = 1/5 := by
    norm_num [projectOneYear, finalMale, projectedMale, ageStep, survivorsMale, deathsMale,
      migrantsMale, adjustedNetMigration, migrationMultiplier, maleInfantSurvivors,
      calculateBirthsFromASFR, infantMortalityMale, mortalityProp, mortalityMultiplier,
      rateOr8, clamp01, jsRound, zeroRates, zeroASFR, neutralScenarios, onePop,
      min_def, max_def, Finset.sum_eq_zero]
  refine ⟨fun i => ⟨?_, ⟨0, rfl⟩⟩, hval, ?_⟩
  · by_cases h : i = 0
    · exact ⟨1, by simp [onePop, h]⟩
    · exact ⟨0, by simp [onePop, h]⟩
  · rintro ⟨n, hn⟩
    rw [hval] at hn
    rw [div_eq_iff (by norm_num : (5:ℚ) ≠ 0)] at hn
    have hZ : (1 : ℤ) = n * 5 := by exact_mod_cast hn
    omega
